import Mathlib

/-!
Verification of an eBPF observation toolkit (BCC/Python with embedded C).

The development shallowly embeds the kernel-side programs and the
user-space decoding of the repository:

* `chapter04/hello-buffer-config.py` and
  `chapter04/hello-ring-buffer-config.py` — the `hello` kprobe handler
  that builds a `data_t` event (pid, uid, command, message) from a
  per-UID `config` hash map, and the `print_event` display callback;
* `chapter02/hello-tail.py` — the `BPF_PROG_ARRAY` dispatch table, its
  default fill with `ignore_opcode`, the selective installs, and the
  dispatcher `hello` with its tail-call/fallthrough semantics;
* `chapter02/hello-map.py` — the per-UID execve counter `count_up`;
* `chapter09/hello-lsm.py` — the `security_file_permission` probe.

Byte buffers are embedded as `List Nat`; machine integers as `Nat` with
explicit `% 2 ^ 32` / `% 2 ^ 64` where the C code truncates.
-/

/-- Capacity of `data_t.command` (`char command[16]` in both chapter04
programs): the buffer filled by `bpf_get_current_comm`. -/
def CMD_CAP : Nat := 16

/-- Capacity of `data_t.message` (`char message[12]` in both chapter04
programs). -/
def MSG_CAP : Nat := 12

/-- Bytes of a string, one `Nat` per character. -/
def bytesOfString (s : String) : List Nat :=
  s.data.map Char.toNat

/-- A C fixed-size `char arr[cap] = "s"` initializer: the characters of
`s` followed by zero fill, truncated to the declared capacity. -/
def cArrayOfString (s : String) (cap : Nat) : List Nat :=
  (bytesOfString s ++ List.replicate cap 0).take cap

/-- `bpf_get_current_comm(&dst, size)`: copies the current task name
into a `size`-byte buffer, zero-padding when the name is shorter. -/
def getCurrentComm (comm : List Nat) (size : Nat) : List Nat :=
  (comm ++ List.replicate size 0).take size

/-- `bpf_probe_read_kernel(&dst, n, src)`: reads exactly `n` bytes
starting at `src`. -/
def probeReadKernel (n : Nat) (src : List Nat) : List Nat :=
  src.take n

/-- The event record `struct data_t` shared by the two chapter04
programs: `int pid; int uid; char command[16]; char message[12];`. -/
structure data_t where
  pid : Nat
  uid : Nat
  command : List Nat
  message : List Nat
deriving DecidableEq

/-- `struct data_t data = {};` — the zero-initialized event record. -/
def zeroRecord : data_t :=
  { pid := 0, uid := 0,
    command := List.replicate CMD_CAP 0,
    message := List.replicate MSG_CAP 0 }

/-- `char message[12] = "Hello World";` — the default message used when
the `config` map has no entry for the current UID. -/
def defaultMessage : List Nat := cArrayOfString "Hello World" MSG_CAP

/-- The `config` map (`BPF_HASH(config, u32, struct user_msg_t)`), as
an association list from UID to the stored value bytes. -/
def ConfigMap : Type := List (Nat × List Nat)

/-- A value seeded from user space via
`ct.create_string_buffer(b"...")`: NUL-terminated text, zero-padded to
the declared value capacity of the map. -/
def seedValue (s : String) (cap : Nat) : List Nat :=
  cArrayOfString s cap

/-- The kprobe handler `hello` of `chapter04/hello-buffer-config.py`
and `chapter04/hello-ring-buffer-config.py` (the two functions are
textually identical in all modelled respects).  `stale` is whatever the
stack held before `struct data_t data = {};` zero-fills it; `config` is
the map contents, `pid_tgid` and `uid_gid` the raw 64-bit helper return
values, `comm` the current task name bytes. -/
def hello (stale : data_t) (config : ConfigMap) (pid_tgid uid_gid : Nat)
    (comm : List Nat) : data_t :=
  let data := zeroRecord
  let message := defaultMessage
  let data := { data with pid := pid_tgid / 2 ^ 32 % 2 ^ 32 }
  let data := { data with uid := uid_gid % 2 ^ 32 }
  let data := { data with command := getCurrentComm comm CMD_CAP }
  let p := List.lookup data.uid config
  match p with
  | some v => { data with message := probeReadKernel MSG_CAP v }
  | none => { data with message := probeReadKernel MSG_CAP message }

namespace BufferConfig

/-- `struct user_msg_t { char message[13]; }` of
`chapter04/hello-buffer-config.py`. -/
def USER_MSG_CAP : Nat := 13

/-- The seeding performed by `hello-buffer-config.py`:
`b["config"][0] = "Hey root!"`, `b["config"][501] = "Hi user 501!"`. -/
def config : ConfigMap :=
  [(0, seedValue "Hey root!" USER_MSG_CAP),
   (501, seedValue "Hi user 501!" USER_MSG_CAP)]

end BufferConfig

namespace RingBufferConfig

/-- `struct user_msg_t { char message[12]; }` of
`chapter04/hello-ring-buffer-config.py`. -/
def USER_MSG_CAP : Nat := 12

/-- The seeding performed by `hello-ring-buffer-config.py`:
`b["config"][0] = "Hey root!"`. -/
def config : ConfigMap :=
  [(0, seedValue "Hey root!" USER_MSG_CAP)]

end RingBufferConfig

/-- Reading a `c_char * n` field of a decoded ctypes structure (as
`b["output"].event(data)` produces): the bytes up to the first NUL. -/
def ctypesValue (bs : List Nat) : List Nat :=
  bs.takeWhile (fun b => b ≠ 0)

/-- Byte list rendered as text (`bytes.decode()` on the ctypes value). -/
def strOfBytes (bs : List Nat) : String :=
  String.mk (bs.map Char.ofNat)

/-- The display callback `print_event` of both chapter04 programs:
`print(f"{data.pid} {data.uid} {data.command.decode()} {data.message.decode()}")`
where `data.command` / `data.message` are ctypes `c_char` arrays, hence
already truncated at the first NUL when read as fields. -/
def print_event (d : data_t) : String :=
  toString d.pid ++ " " ++ toString d.uid ++ " "
    ++ strOfBytes (ctypesValue d.command) ++ " "
    ++ strOfBytes (ctypesValue d.message)

namespace Tail

/-- The three tail-call targets of `chapter02/hello-tail.py`, loaded
with `b.load_func` and installed into the program array by fd. -/
inductive Handler where
  | ignore_opcode
  | hello_exec
  | hello_timer
deriving DecidableEq

/-- `BPF_PROG_ARRAY(syscall, 500)` contents: slot index to installed
program, `none` for a slot never written. -/
def Table : Type := Nat → Option Handler

/-- Number of slots of `BPF_PROG_ARRAY(syscall, 500)`. -/
def TABLE_SIZE : Nat := 500

/-- A freshly created program array: no slot holds a program. -/
def emptyTable : Table := fun _ => none

/-- `prog_array[ct.c_int(k)] = ct.c_int(h.fd)` — store a program into
one slot. -/
def tableStore (t : Table) (k : Nat) (h : Handler) : Table :=
  fun i => if i = k then some h else t i

/-- The default fill loop
`for i in range(len(prog_array)): prog_array[i] = ignore_fn.fd`. -/
def defaultedTable : Table :=
  (List.range TABLE_SIZE).foldl
    (fun t i => tableStore t i Handler.ignore_opcode) emptyTable

/-- The table after the selective installs that follow the default
fill: opcode 59 to `hello_exec`, opcodes 222–226 to `hello_timer`. -/
def finalTable : Table :=
  tableStore (tableStore (tableStore (tableStore (tableStore
    (tableStore defaultedTable 59 Handler.hello_exec)
    222 Handler.hello_timer) 223 Handler.hello_timer)
    224 Handler.hello_timer) 225 Handler.hello_timer)
    226 Handler.hello_timer

/-- `syscall.call(ctx, opcode)` — the tail-call attempt: the kernel
checks the index against the array size before any access, then jumps
to the installed program if the slot is populated; otherwise execution
falls through (`none`). -/
def dispatch (t : Table) (op : Nat) : Option Handler :=
  if op < TABLE_SIZE then t op else none

/-- Running one tail-call target: its return value and the
`bpf_trace_printk` lines it emits. `ignore_opcode` does nothing;
`hello_exec` logs one line; `hello_timer` switches on the opcode. -/
def runHandler (h : Handler) (op : Nat) : Nat × List String :=
  match h with
  | Handler.ignore_opcode => (0, [])
  | Handler.hello_exec => (0, ["Executing a program"])
  | Handler.hello_timer =>
      if op = 222 then (0, ["Creating a timer"])
      else if op = 226 then (0, ["Deleting a timer"])
      else (0, ["Some other timer operation"])

/-- The dispatcher `hello` of `chapter02/hello-tail.py`: it attempts
the tail call; on success control never returns (the target's result
is the program's result), on failure it falls through to
`bpf_trace_printk("Another syscall: %d", opcode)` and returns 0. -/
def helloTail (t : Table) (op : Nat) : Nat × List String :=
  match dispatch t op with
  | some h => runHandler h op
  | none => (0, ["Another syscall: " ++ toString op])

end Tail

namespace HelloMap

/-- `count_up` of `chapter02/hello-map.py`: takes the current
`counter_table` contents (UID to u64 count) and the raw
`bpf_get_current_uid_gid()` value; `lookup_or_init(&uid, &zero)`
inserts 0 when the UID is absent, then `(*p)++` increments the u64 in
place. -/
def count_up (m : Nat → Option Nat) (uid_gid : Nat) : Nat → Option Nat :=
  let uid := uid_gid % 2 ^ 32
  let init := (m uid).getD 0
  fun k => if k = uid then some ((init + 1) % 2 ^ 64) else m k

end HelloMap

namespace Lsm

/-- `%x` rendering used by `bpf_trace_printk("... mask %x", mask)`. -/
def hexOfNat (n : Nat) : String :=
  String.mk (Nat.toDigits 16 n)

/-- The `KFUNC_PROBE(security_file_permission, struct file *f, int
mask)` body of `chapter09/hello-lsm.py`: fetches the current comm and
UID, returns 0 immediately for every UID other than 1001, and for UID
1001 emits the two `bpf_trace_printk` lines before returning 0.
`fname` stands for `f->f_path.dentry->d_iname`. -/
def security_file_permission (uid_gid : Nat) (comm : List Nat)
    (fname : String) (mask : Nat) : Nat × List String :=
  let command := getCurrentComm comm 256
  let uid := uid_gid % 2 ^ 32
  if uid ≠ 1001 then (0, [])
  else
    (0, ["File " ++ strOfBytes (ctypesValue (bytesOfString fname))
           ++ " mask " ++ hexOfNat mask,
         "     opened by: " ++ strOfBytes (ctypesValue command)])

end Lsm

/-- The message field of a produced event, as a function of the
`config` lookup on the event's UID. -/
theorem hello_message_eq (stale : data_t) (config : ConfigMap)
    (pid_tgid uid_gid : Nat) (comm : List Nat) :
    (hello stale config pid_tgid uid_gid comm).message
      = match List.lookup (uid_gid % 2 ^ 32) config with
        | some v => v.take MSG_CAP
        | none => defaultMessage := by
  cases h : List.lookup (uid_gid % 2 ^ 32) config with
  | none => simp only [hello, h]; decide
  | some v => simp only [hello, h, probeReadKernel]

/-- The command field of a produced event is the zero-padded comm. -/
theorem hello_command_eq (stale : data_t) (config : ConfigMap)
    (pid_tgid uid_gid : Nat) (comm : List Nat) :
    (hello stale config pid_tgid uid_gid comm).command
      = getCurrentComm comm CMD_CAP := by
  cases h : List.lookup (uid_gid % 2 ^ 32) config with
  | none => simp only [hello, h]
  | some v => simp only [hello, h]

/-- Claim C1: for a triggering event whose effective UID has no entry
in the `config` store, the produced event's message is the default
"Hello World" (and decodes to exactly that text); for a UID with an
entry, the message is that entry's value truncated to the 12-byte
capacity of `data_t.message`. -/
theorem hello_lookup_or_default (stale : data_t) (config : ConfigMap)
    (pid_tgid uid_gid : Nat) (comm : List Nat) :
    (List.lookup (uid_gid % 2 ^ 32) config = none →
        (hello stale config pid_tgid uid_gid comm).message = defaultMessage ∧
        strOfBytes (ctypesValue
            (hello stale config pid_tgid uid_gid comm).message)
          = "Hello World") ∧
    (∀ v, List.lookup (uid_gid % 2 ^ 32) config = some v →
        (hello stale config pid_tgid uid_gid comm).message
          = v.take MSG_CAP) := by
  constructor
  · intro h
    have hm := hello_message_eq stale config pid_tgid uid_gid comm
    rw [h] at hm
    refine ⟨hm, ?_⟩
    rw [hm]
    decide
  · intro v h
    have hm := hello_message_eq stale config pid_tgid uid_gid comm
    rw [h] at hm
    exact hm

/-- Witness for C1: with no config entries a UID-42 event carries
"Hello World"; with the perf-buffer program's seeding, a UID-0 event
carries the seeded value truncated to 12 bytes. -/
theorem hello_lookup_or_default_witness :
    (hello zeroRecord [] 0 42 []).message = defaultMessage ∧
    strOfBytes (ctypesValue (hello zeroRecord [] 0 42 []).message)
      = "Hello World" ∧
    (hello zeroRecord BufferConfig.config 0 0 []).message
      = (seedValue "Hey root!" BufferConfig.USER_MSG_CAP).take MSG_CAP := by
  refine ⟨?_, ?_, ?_⟩
  · exact ((hello_lookup_or_default zeroRecord [] 0 42 []).1 (by decide)).1
  · exact ((hello_lookup_or_default zeroRecord [] 0 42 []).1 (by decide)).2
  · exact (hello_lookup_or_default zeroRecord BufferConfig.config 0 0 []).2
      (seedValue "Hey root!" BufferConfig.USER_MSG_CAP) (by decide)

/-- Claim C2: the copy from a config value into `data_t.message` uses
`sizeof(data.message)` = 12 bytes as its bound, which is the smaller of
the two declared capacities in both chapter04 programs; with the
13-byte perf-variant value exactly 12 bytes are copied, dropping the
last byte; and the copy depends only on the first 12 bytes of the
source, which both declared capacities cover, so it never reads past
either buffer. -/
theorem copy_bound_smaller_capacity :
    MSG_CAP = min BufferConfig.USER_MSG_CAP MSG_CAP ∧
    MSG_CAP = min RingBufferConfig.USER_MSG_CAP MSG_CAP ∧
    (∀ v : List Nat, v.length = BufferConfig.USER_MSG_CAP →
        probeReadKernel MSG_CAP v = v.dropLast ∧
        (probeReadKernel MSG_CAP v).length = MSG_CAP ∧
        MSG_CAP ≤ v.length) ∧
    (∀ n : Nat, ∀ v w : List Nat, v.take n = w.take n →
        probeReadKernel n v = probeReadKernel n w) := by
  refine ⟨by decide, by decide, ?_, ?_⟩
  · intro v hv
    refine ⟨?_, ?_, ?_⟩
    · rw [probeReadKernel, List.dropLast_eq_take, hv]
      rfl
    · rw [probeReadKernel, List.length_take, hv]
      rfl
    · rw [hv]
      decide
  · intro n v w h
    rw [probeReadKernel, probeReadKernel, h]

/-- Witness for C2: the 13-byte seeded value "Hi user 501!" is copied
as its first 12 bytes, losing its NUL terminator. -/
theorem copy_bound_smaller_capacity_witness :
    probeReadKernel MSG_CAP (seedValue "Hi user 501!" BufferConfig.USER_MSG_CAP)
      = (seedValue "Hi user 501!" BufferConfig.USER_MSG_CAP).dropLast ∧
    probeReadKernel 3 [1, 2, 3, 4] = probeReadKernel 3 [1, 2, 3, 9] := by
  constructor
  · exact (copy_bound_smaller_capacity.2.2.1
      (seedValue "Hi user 501!" BufferConfig.USER_MSG_CAP) (by decide)).1
  · exact copy_bound_smaller_capacity.2.2.2 3 [1, 2, 3, 4] [1, 2, 3, 9]
      (by decide)

/-- Claim C3 counterexample: in `hello-buffer-config.py` the config
store's declared value capacity (`char message[13]`) is strictly larger
than the event record's message capacity (`char message[12]`), so the
claimed capacity invariant fails for the perf-buffer variant. -/
theorem perf_capacity_exceeds_message_capacity :
    ¬ (BufferConfig.USER_MSG_CAP ≤ MSG_CAP) := by decide

/-- Claim C3 (amended): only the ring-buffer variant declares its
config value capacity equal to or below the message field capacity;
the perf-buffer variant declares one byte more (13 > 12), and silent
truncation does occur there: the seeded 13-byte value "Hi user 501!"
reaches the event with its final byte (the NUL) dropped. -/
theorem capacity_relation :
    RingBufferConfig.USER_MSG_CAP ≤ MSG_CAP ∧
    BufferConfig.USER_MSG_CAP = MSG_CAP + 1 ∧
    (hello zeroRecord BufferConfig.config 0 501 []).message
      ≠ seedValue "Hi user 501!" BufferConfig.USER_MSG_CAP ∧
    (hello zeroRecord BufferConfig.config 0 501 []).message
      = (seedValue "Hi user 501!" BufferConfig.USER_MSG_CAP).dropLast := by
  decide

/-- Bytes of the comm buffer beyond the source task name are the zero
padding of `bpf_get_current_comm`. -/
theorem getCurrentComm_padding (comm : List Nat) (size : Nat) :
    ∀ b ∈ (getCurrentComm comm size).drop comm.length, b = 0 := by
  intro b hb
  unfold getCurrentComm at hb
  by_cases h : comm.length ≤ size
  · rw [show size = comm.length + (size - comm.length) by omega,
      ← List.take_drop, List.drop_left] at hb
    exact List.eq_of_mem_replicate (List.mem_of_mem_take hb)
  · rw [List.drop_of_length_le (by simp [List.length_take]; omega)] at hb
    exact absurd hb (List.not_mem_nil b)

/-- Claim C4: the event record is zero-filled before any field
assignment (`struct data_t data = {};`), so the produced event is
independent of whatever the stack previously held, and every byte of
the command and message fields not covered by the bounded copies is
zero. -/
theorem hello_zero_fill (stale stale' : data_t) (config : ConfigMap)
    (pid_tgid uid_gid : Nat) (comm : List Nat) :
    hello stale config pid_tgid uid_gid comm
      = hello stale' config pid_tgid uid_gid comm ∧
    (∀ b ∈ ((hello stale config pid_tgid uid_gid comm).command).drop
        comm.length, b = 0) ∧
    (List.lookup (uid_gid % 2 ^ 32) config = none →
        ∀ b ∈ ((hello stale config pid_tgid uid_gid comm).message).drop
            (bytesOfString "Hello World").length, b = 0) := by
  refine ⟨rfl, ?_, ?_⟩
  · rw [hello_command_eq]
    exact getCurrentComm_padding comm CMD_CAP
  · intro h
    have hm := hello_message_eq stale config pid_tgid uid_gid comm
    rw [h] at hm
    rw [hm]
    decide

/-- Witness for C4: a stale record full of nonzero bytes produces the
same event as the zero record, and no stale byte (7 in the command
padding, 9 in the message padding) survives into the fresh event. -/
theorem hello_zero_fill_witness :
    hello (data_t.mk 1 2 (List.replicate 16 7) (List.replicate 12 9)) []
        5 42 (bytesOfString "ls")
      = hello zeroRecord [] 5 42 (bytesOfString "ls") ∧
    (7 : Nat) ∉ ((hello zeroRecord [] 5 42 (bytesOfString "ls")).command).drop
        (bytesOfString "ls").length ∧
    (9 : Nat) ∉ ((hello zeroRecord [] 5 42 (bytesOfString "ls")).message).drop
        (bytesOfString "Hello World").length := by
  refine ⟨?_, ?_, ?_⟩
  · exact (hello_zero_fill
      (data_t.mk 1 2 (List.replicate 16 7) (List.replicate 12 9)) zeroRecord
      [] 5 42 (bytesOfString "ls")).1
  · intro hmem
    exact absurd ((hello_zero_fill zeroRecord zeroRecord [] 5 42
      (bytesOfString "ls")).2.1 7 hmem) (by decide)
  · intro hmem
    exact absurd ((hello_zero_fill zeroRecord zeroRecord [] 5 42
      (bytesOfString "ls")).2.2 (by decide) 9 hmem) (by decide)

/-- `takeWhile` returns an initial segment of its input. -/
theorem takeWhile_eq_take_length (p : Nat → Bool) (l : List Nat) :
    l.takeWhile p = l.take (l.takeWhile p).length := by
  induction l with
  | nil => rfl
  | cons a t ih =>
      cases h : p a with
      | true =>
          rw [List.takeWhile_cons_of_pos h, List.length_cons,
            List.take_succ_cons, ← ih]
      | false =>
          rw [List.takeWhile_cons_of_neg (by simp [h])]
          rfl

/-- Claim C8: `print_event` (identical in both chapter04 programs)
writes one line `pid uid command message`, space-separated, where the
command and message fields are the ctypes `c_char`-array values: text
cut at the first NUL, hence NUL-free and an initial segment of the raw
field bytes. -/
theorem print_event_format (d : data_t) :
    print_event d
      = String.intercalate " "
          [toString d.pid, toString d.uid,
           strOfBytes (ctypesValue d.command),
           strOfBytes (ctypesValue d.message)] ∧
    (∀ b ∈ ctypesValue d.command, b ≠ 0) ∧
    (∀ b ∈ ctypesValue d.message, b ≠ 0) ∧
    ctypesValue d.command = d.command.take (ctypesValue d.command).length ∧
    ctypesValue d.message = d.message.take (ctypesValue d.message).length := by
  refine ⟨rfl, ?_, ?_, ?_, ?_⟩
  · intro b hb
    simpa using List.mem_takeWhile_imp hb
  · intro b hb
    simpa using List.mem_takeWhile_imp hb
  · exact takeWhile_eq_take_length _ d.command
  · exact takeWhile_eq_take_length _ d.message

/-- Witness for C8 on a concrete event: the line for pid 3, uid 4,
command "bash" (NUL-padded), message "Hey root!" (NUL-padded). -/
theorem print_event_format_witness :
    print_event (data_t.mk 3 4 (getCurrentComm (bytesOfString "bash") CMD_CAP)
        (cArrayOfString "Hey root!" MSG_CAP))
      = String.intercalate " " ["3", "4", "bash", "Hey root!"] ∧
    (0 : Nat) ∉ ctypesValue (data_t.mk 3 4
        (getCurrentComm (bytesOfString "bash") CMD_CAP)
        (cArrayOfString "Hey root!" MSG_CAP)).message := by
  constructor
  · have h := (print_event_format (data_t.mk 3 4
      (getCurrentComm (bytesOfString "bash") CMD_CAP)
      (cArrayOfString "Hey root!" MSG_CAP))).1
    rw [h]
    decide
  · intro hmem
    exact (print_event_format (data_t.mk 3 4
      (getCurrentComm (bytesOfString "bash") CMD_CAP)
      (cArrayOfString "Hey root!" MSG_CAP))).2.2.1 0 hmem rfl

/-- Effect of the default fill loop on one slot: every index below the
loop bound holds `ignore_opcode`, indices beyond it are untouched. -/
theorem range_fill_ignore (n : Nat) (t : Tail.Table) (i : Nat) :
    ((List.range n).foldl
        (fun s j => Tail.tableStore s j Tail.Handler.ignore_opcode) t) i
      = if i < n then some Tail.Handler.ignore_opcode else t i := by
  induction n generalizing t with
  | zero => simp
  | succ m ih =>
      rw [List.range_succ, List.foldl_append, List.foldl_cons,
        List.foldl_nil]
      show (if i = m then some Tail.Handler.ignore_opcode
        else ((List.range m).foldl
          (fun s j => Tail.tableStore s j Tail.Handler.ignore_opcode) t) i)
        = _
      rw [ih]
      by_cases h1 : i = m
      · simp [h1]
      · by_cases h2 : i < m
        · simp [h1, h2, Nat.lt_succ_of_lt h2]
        · have h3 : ¬ i < m + 1 := by omega
          simp [h1, h2, h3]

/-- Claim C5: after the fill loop and before any selective install,
every slot 0..499 holds the default `ignore_opcode` program, so
dispatching any in-bounds opcode reaches the default handler and never
falls through. -/
theorem defaulted_dispatch_reaches_ignore (op : Nat)
    (h : op < Tail.TABLE_SIZE) :
    Tail.dispatch Tail.defaultedTable op
      = some Tail.Handler.ignore_opcode := by
  unfold Tail.dispatch Tail.defaultedTable
  rw [if_pos h, range_fill_ignore, if_pos h]

/-- Witness for C5 at opcode 0 and at the last slot 499. -/
theorem defaulted_dispatch_reaches_ignore_witness :
    Tail.dispatch Tail.defaultedTable 0
        = some Tail.Handler.ignore_opcode ∧
    Tail.dispatch Tail.defaultedTable 499
        = some Tail.Handler.ignore_opcode := by
  exact ⟨defaulted_dispatch_reaches_ignore 0 (by decide),
    defaulted_dispatch_reaches_ignore 499 (by decide)⟩

/-- Claim C6: with the installs applied, opcode 59 dispatches to
`hello_exec`, opcode 222 to `hello_timer`, and a non-installed
in-bounds opcode such as 7 to the default `ignore_opcode`, which
returns 0 and emits no output. -/
theorem dispatch_routing :
    Tail.dispatch Tail.finalTable 59 = some Tail.Handler.hello_exec ∧
    Tail.dispatch Tail.finalTable 222 = some Tail.Handler.hello_timer ∧
    Tail.dispatch Tail.finalTable 7 = some Tail.Handler.ignore_opcode ∧
    Tail.runHandler Tail.Handler.ignore_opcode 7 = (0, []) ∧
    Tail.helloTail Tail.finalTable 7 = (0, []) := by
  have h59 : Tail.finalTable 59 = some Tail.Handler.hello_exec := by
    unfold Tail.finalTable Tail.tableStore
    norm_num
  have h222 : Tail.finalTable 222 = some Tail.Handler.hello_timer := by
    unfold Tail.finalTable Tail.tableStore
    norm_num
  have h7 : Tail.finalTable 7 = some Tail.Handler.ignore_opcode := by
    unfold Tail.finalTable Tail.tableStore
    norm_num
    rw [show Tail.defaultedTable 7
        = some Tail.Handler.ignore_opcode from ?_]
    · unfold Tail.defaultedTable
      rw [range_fill_ignore]
      rfl
  have d59 : Tail.dispatch Tail.finalTable 59
      = some Tail.Handler.hello_exec := by
    unfold Tail.dispatch; rw [if_pos (by decide), h59]
  have d222 : Tail.dispatch Tail.finalTable 222
      = some Tail.Handler.hello_timer := by
    unfold Tail.dispatch; rw [if_pos (by decide), h222]
  have d7 : Tail.dispatch Tail.finalTable 7
      = some Tail.Handler.ignore_opcode := by
    unfold Tail.dispatch; rw [if_pos (by decide), h7]
  refine ⟨d59, d222, d7, rfl, ?_⟩
  unfold Tail.helloTail
  rw [d7]
  rfl

/-- Claim C7: the tail-call attempt checks the opcode against the
declared table size before any access, so an opcode at or beyond 500
never indexes the table (the dispatch result depends only on the
in-bounds slots) and always falls through; on every fallthrough the
dispatcher's next statement emits the single diagnostic
"Another syscall: opcode" and returns 0. -/
theorem dispatch_fallthrough_safe (t : Tail.Table) (op : Nat) :
    (Tail.TABLE_SIZE ≤ op → Tail.dispatch t op = none) ∧
    (∀ t' : Tail.Table,
        (∀ i, i < Tail.TABLE_SIZE → t i = t' i) →
        Tail.dispatch t op = Tail.dispatch t' op) ∧
    (Tail.dispatch t op = none →
        Tail.helloTail t op
          = (0, ["Another syscall: " ++ toString op])) := by
  refine ⟨?_, ?_, ?_⟩
  · intro h
    unfold Tail.dispatch
    rw [if_neg (by omega)]
  · intro t' hagree
    unfold Tail.dispatch
    by_cases h : op < Tail.TABLE_SIZE
    · rw [if_pos h, if_pos h, hagree op h]
    · rw [if_neg h, if_neg h]
  · intro h
    unfold Tail.helloTail
    rw [h]

/-- Witness for C7 at opcode 500 (one past the last slot) on the fully
initialized table: dispatch falls through and the diagnostic names the
opcode. -/
theorem dispatch_fallthrough_safe_witness :
    Tail.dispatch Tail.finalTable 500 = none ∧
    Tail.helloTail Tail.finalTable 500
      = (0, ["Another syscall: 500"]) ∧
    Tail.dispatch
        (Tail.tableStore Tail.finalTable 1000 Tail.Handler.hello_exec) 1000
      = Tail.dispatch Tail.finalTable 1000 := by
  refine ⟨?_, ?_, ?_⟩
  · exact (dispatch_fallthrough_safe Tail.finalTable 500).1 (by decide)
  · rw [(dispatch_fallthrough_safe Tail.finalTable 500).2.2
      ((dispatch_fallthrough_safe Tail.finalTable 500).1 (by decide))]
    decide
  · exact (dispatch_fallthrough_safe
      (Tail.tableStore Tail.finalTable 1000 Tail.Handler.hello_exec)
      1000).2.1 Tail.finalTable (fun i hi => by
        have h500 : i < 500 := hi
        unfold Tail.tableStore
        rw [if_neg (by omega)])

/-- Claim C9: one triggering event increments only the counter keyed by
the current effective UID. An absent key is first created at zero by
`lookup_or_init`, so the first event yields count 1; a present u64
count `v` becomes `(v + 1) % 2^64`, which is exactly `v + 1` whenever
the u64 does not wrap; every other key's counter is unchanged. -/
theorem count_up_increments_only_uid (m : Nat → Option Nat)
    (uid_gid k : Nat) :
    (m (uid_gid % 2 ^ 32) = none →
        HelloMap.count_up m uid_gid (uid_gid % 2 ^ 32) = some 1) ∧
    (∀ v, m (uid_gid % 2 ^ 32) = some v →
        HelloMap.count_up m uid_gid (uid_gid % 2 ^ 32)
          = some ((v + 1) % 2 ^ 64)) ∧
    (∀ v, m (uid_gid % 2 ^ 32) = some v → v + 1 < 2 ^ 64 →
        HelloMap.count_up m uid_gid (uid_gid % 2 ^ 32) = some (v + 1)) ∧
    (k ≠ uid_gid % 2 ^ 32 → HelloMap.count_up m uid_gid k = m k) := by
  refine ⟨?_, ?_, ?_, ?_⟩
  · intro h
    unfold HelloMap.count_up
    rw [if_pos rfl, h]
    norm_num
  · intro v h
    unfold HelloMap.count_up
    rw [if_pos rfl, h]
    rfl
  · intro v h hv
    unfold HelloMap.count_up
    rw [if_pos rfl, h]
    simp only [Option.getD_some]
    rw [Nat.mod_eq_of_lt hv]
  · intro h
    unfold HelloMap.count_up
    rw [if_neg h]

/-- Witness for C9: starting from a table holding 41 for UID 7 and 5
for UID 8, an event with raw uid_gid 7 takes UID 7 to 42 and leaves
UID 8 at 5; from the empty table the same event yields count 1. -/
theorem count_up_increments_only_uid_witness :
    HelloMap.count_up
        (fun k => if k = 7 then some 41 else if k = 8 then some 5 else none)
        7 7 = some 42 ∧
    HelloMap.count_up
        (fun k => if k = 7 then some 41 else if k = 8 then some 5 else none)
        7 8 = some 5 ∧
    HelloMap.count_up (fun _ => none) 7 7 = some 1 := by
  refine ⟨?_, ?_, ?_⟩
  · exact (count_up_increments_only_uid
      (fun k => if k = 7 then some 41 else if k = 8 then some 5 else none)
      7 8).2.2.1 41 (by decide) (by norm_num)
  · exact (count_up_increments_only_uid
      (fun k => if k = 7 then some 41 else if k = 8 then some 5 else none)
      7 8).2.2.2 (by decide)
  · exact (count_up_increments_only_uid (fun _ => none) 7 7).1 (by decide)

/-- Claim C10: the LSM `security_file_permission` probe returns 0 on
every invocation, for all UIDs, comms, file names and mask values — it
never denies an access; and it emits trace output only when the
caller's effective UID is 1001. -/
theorem lsm_always_allows (uid_gid : Nat) (comm : List Nat)
    (fname : String) (mask : Nat) :
    (Lsm.security_file_permission uid_gid comm fname mask).1 = 0 ∧
    (uid_gid % 2 ^ 32 ≠ 1001 →
        (Lsm.security_file_permission uid_gid comm fname mask).2 = []) ∧
    ((Lsm.security_file_permission uid_gid comm fname mask).2 ≠ [] →
        uid_gid % 2 ^ 32 = 1001) := by
  unfold Lsm.security_file_permission
  by_cases h : uid_gid % 2 ^ 32 ≠ 1001
  · rw [if_pos h]
    exact ⟨rfl, fun _ => rfl, fun hne => absurd rfl hne⟩
  · rw [if_neg h]
    push_neg at h
    exact ⟨rfl, fun hne => absurd h hne, fun _ => h⟩

/-- Witness for C10: a UID-5 access is allowed with no output; a
UID-1001 access is also allowed (return 0) and its trace output being
nonempty forces the UID to be 1001. -/
theorem lsm_always_allows_witness :
    (Lsm.security_file_permission 5 (bytesOfString "cat") "passwd" 4).1 = 0 ∧
    (Lsm.security_file_permission 5 (bytesOfString "cat") "passwd" 4).2 = [] ∧
    (Lsm.security_file_permission 1001 (bytesOfString "cat") "passwd" 4).1
      = 0 ∧
    (1001 : Nat) % 2 ^ 32 = 1001 := by
  refine ⟨?_, ?_, ?_, ?_⟩
  · exact (lsm_always_allows 5 (bytesOfString "cat") "passwd" 4).1
  · exact (lsm_always_allows 5 (bytesOfString "cat") "passwd" 4).2.1
      (by decide)
  · exact (lsm_always_allows 1001 (bytesOfString "cat") "passwd" 4).1
  · exact (lsm_always_allows 1001 (bytesOfString "cat") "passwd" 4).2.2
      (by decide)
